import Mathlib

/-!
Verification of the ice-bath monitor (`src/monitor.py`).

The script polls networked ice-bath devices, normalizes a loosely typed
property list into flow / temperature / switch readings, infers a pump
display state, evaluates threshold rules, and sends at most one push
notification per cycle.

Shallow embedding choices:
  * Python numeric values are modelled as exact rationals (`ℚ`); every raw
    device value is an integer and the only arithmetic is `/ 10.0`,
    subtraction of `32` and `* 5 / 9`, all exact in `ℚ`.
  * A Python dict entry of the property list may lack the `code` or the
    `value` key, so both fields are `Option`; `item['value']` on a missing
    key raises `KeyError`, modelled with `Except`.
  * Python values in the list may be ints, booleans or strings
    (`value: numeric|boolean` per the data model, plus unexpected types);
    `val / 10.0` on a string raises `TypeError`.
  * The textual rendering of a Python float (`f"{flow_rate}"`) is kept
    abstract as a parameter `fmtFlow : ℚ → String`; the one-decimal
    rendering `f"{water_temp:.1f}"` is modelled concretely by `fmt1`.
  * `send_alert` is an external collaborator; the embedding of `main`
    returns the list of messages passed to it (empty or a singleton).
-/

namespace IceBath

/-- A Python runtime value as it can appear in a `{code, value}` property. -/
inductive PyVal where
  | int (n : Int)
  | bool (b : Bool)
  | str (s : String)
deriving DecidableEq, Repr

/-- Exceptions the parsing loop of `get_device_status` can raise. -/
inductive PyError where
  | keyError (key : String)
  | typeError
deriving DecidableEq, Repr

/-- One entry of the `properties` list; either key may be missing
(`RawProperty` of the data model: `{code: string, value: numeric|boolean}`,
not guaranteed present). -/
structure RawProperty where
  code : Option String
  value : Option PyVal
deriving DecidableEq, Repr

/-- `val / 10.0` in Python: ints and bools divide (bool is an int subtype,
`True` is `1`), a string raises `TypeError`. -/
def pyDivTen : PyVal → Except PyError ℚ
  | .int n => .ok ((n : ℚ) / 10)
  | .bool b => .ok ((if b then (1 : ℚ) else 0) / 10)
  | .str _ => .error .typeError

/-- `bool(val)` in Python: nonzero int, `True`, or nonempty string. -/
def pyBool : PyVal → Bool
  | .int n => decide (n ≠ 0)
  | .bool b => b
  | .str s => decide (s ≠ "")

/-- The normalized reading held in the local variables `flow_rate`,
`water_temp`, `manual_switch` of `get_device_status`. -/
structure Reading where
  flow_rate : ℚ
  water_temp : ℚ
  manual_switch : Bool
deriving DecidableEq, Repr

/-- Initial values of the three locals: `0.0`, `0.0`, `False`
(monitor.py lines 73-75). -/
def initReading : Reading := ⟨0, 0, false⟩

/-- One iteration of the parsing loop (monitor.py lines 81-91):
`val = item['value']`, `code = item['code']` (each a `KeyError` when the
key is missing, value first as in the source), then assignment to the
matching local: `flow_water ↦ val / 10.0`,
`temp_current_f ↦ (val / 10.0 - 32) * 5/9`, `sw_water ↦ bool(val)`,
any other code ignored. -/
def stepProp (r : Reading) (item : RawProperty) : Except PyError Reading := do
  let val ← match item.value with
    | some v => Except.ok v
    | none => Except.error (.keyError "value")
  let code ← match item.code with
    | some c => Except.ok c
    | none => Except.error (.keyError "code")
  if code = "flow_water" then do
    let q ← pyDivTen val
    Except.ok { r with flow_rate := q }
  else if code = "temp_current_f" then do
    let f_temp ← pyDivTen val
    Except.ok { r with water_temp := (f_temp - 32) * 5 / 9 }
  else if code = "sw_water" then
    Except.ok { r with manual_switch := pyBool val }
  else
    Except.ok r

/-- The parsing loop `for item in properties`, starting from reading `r`. -/
def normalizeFrom (r : Reading) : List RawProperty → Except PyError Reading
  | [] => Except.ok r
  | item :: rest =>
    match stepProp r item with
    | .ok r2 => normalizeFrom r2 rest
    | .error e => Except.error e

/-- Telemetry normalization: the parsing loop of `get_device_status`
started from the defaults `0.0 / 0.0 / False`. -/
def normalize (properties : List RawProperty) : Except PyError Reading :=
  normalizeFrom initReading properties

/-- `MIN_FLOW = 19.0` (monitor.py line 20). -/
def MIN_FLOW : ℚ := 19

/-- `MAX_TEMP = 12.0` (monitor.py line 21). -/
def MAX_TEMP : ℚ := 12

/-- The pump display logic (monitor.py lines 93-99): flow above 1 L/min
wins over the switch bit; `"ON (Active Flow)"` is the spec state
ON_VIA_FLOW, `"ON (Switch)"` is ON_VIA_SWITCH, `"OFF"` is OFF. -/
def pump_display (flow_rate : ℚ) (manual_switch : Bool) : String :=
  if flow_rate > 1 then "ON (Active Flow)"
  else if manual_switch then "ON (Switch)"
  else "OFF"

/-- One detected issue; the constructors carry the measured value so that
the rendered detail string can be stated about exactly. -/
inductive Issue where
  | connectionError (name : String)
  | noFlow (name : String)
  | lowFlow (name : String) (flow : ℚ)
  | highTemp (name : String) (temp : ℚ)
deriving DecidableEq, Repr

/-- Issues of the flow rule (RULE 1). -/
def isFlowIssue : Issue → Bool
  | .noFlow _ => true
  | .lowFlow _ _ => true
  | _ => false

/-- LOW_FLOW issues only. -/
def isLowFlow : Issue → Bool
  | .lowFlow _ _ => true
  | _ => false

/-- NO_FLOW issues only. -/
def isNoFlow : Issue → Bool
  | .noFlow _ => true
  | _ => false

/-- HIGH_TEMP issues (RULE 2). -/
def isHighTemp : Issue → Bool
  | .highTemp _ _ => true
  | _ => false

/-- The two threshold rules of `get_device_status` (monitor.py lines
103-114), with the thresholds as parameters (they are module-level
configuration constants in the source). RULE 1 appends a NO_FLOW or
LOW_FLOW issue when `flow_rate < MIN_FLOW`; RULE 2 appends a HIGH_TEMP
issue when `water_temp > MAX_TEMP and water_temp > 0`. -/
def evalIssuesWith (minFlow maxTemp : ℚ) (name : String) (r : Reading) :
    List Issue :=
  (if r.flow_rate < minFlow then
    (if r.flow_rate = 0 then [Issue.noFlow name]
     else [Issue.lowFlow name r.flow_rate])
   else []) ++
  (if r.water_temp > maxTemp ∧ r.water_temp > 0 then
    [Issue.highTemp name r.water_temp]
   else [])

/-- The threshold rules at the configured thresholds. -/
def evalIssues (name : String) (r : Reading) : List Issue :=
  evalIssuesWith MIN_FLOW MAX_TEMP name r

/-- One-decimal rendering of a rational, modelling `f"{x:.1f}"`. -/
def fmt1 (q : ℚ) : String :=
  let n : Int := round (q * 10)
  let s := toString (n.natAbs / 10) ++ "." ++ toString (n.natAbs % 10)
  if n < 0 then "-" ++ s else s

/-- The f-strings of `get_device_status` rendering one issue, with the
Python float rendering of the flow value abstract (`fmtFlow`). -/
def issueDetail (fmtFlow : ℚ → String) : Issue → String
  | .connectionError name => name ++ ": Connection Error ❌"
  | .noFlow name => name ++ ": No Flow (Pump Off?)"
  | .lowFlow name flow => name ++ ": Low Flow (" ++ fmtFlow flow ++ "L)"
  | .highTemp name temp => name ++ ": High Temp (" ++ fmt1 temp ++ "°C)"

/-- The shadow-endpoint response as `get_device_status` inspects it:
either `success` with a property list, or a failure with a message. -/
inductive Response where
  | failure (msg : String)
  | success (properties : List RawProperty)
deriving Repr

/-- `get_device_status` (monitor.py lines 61-116): a failed fetch returns
the singleton connection-error list; otherwise the property list is
normalized (possibly raising) and the issue strings are returned. -/
def get_device_status (fmtFlow : ℚ → String) (name : String) :
    Response → Except PyError (List String)
  | .failure _ => Except.ok [name ++ ": Connection Error ❌"]
  | .success properties => do
    let r ← normalize properties
    Except.ok ((evalIssues name r).map (issueDetail fmtFlow))

/-- The device loop of `main` (monitor.py lines 130-134), accumulating
`all_alerts` by `extend`, starting from `acc`. -/
def runCycleFrom (fmtFlow : ℚ → String) (acc : List String) :
    List (String × Response) → Except PyError (List String)
  | [] => Except.ok acc
  | (name, resp) :: rest =>
    match get_device_status fmtFlow name resp with
    | .ok issues => runCycleFrom fmtFlow (acc ++ issues) rest
    | .error e => Except.error e

/-- The device loop started from `all_alerts = []`. -/
def runCycle (fmtFlow : ℚ → String) (devices : List (String × Response)) :
    Except PyError (List String) :=
  runCycleFrom fmtFlow [] devices

/-- The notification step of `main` (monitor.py lines 136-140): the list of
messages handed to `send_alert` — a single joined message when
`all_alerts` is nonempty, nothing otherwise. -/
def mainNotifications (fmtFlow : ℚ → String)
    (devices : List (String × Response)) : Except PyError (List String) := do
  let all_alerts ← runCycle fmtFlow devices
  if all_alerts.isEmpty then Except.ok []
  else Except.ok [String.intercalate "\n" all_alerts]

/-- `s` contains `t` as a contiguous substring. -/
def ContainsSub (s t : String) : Prop :=
  ∃ l r, s = l ++ t ++ r

/-- `should_run_check` (monitor.py lines 23-45) as a function of the
Python weekday (`Monday = 0 … Sunday = 6`) and hour of the local Sydney
time; the body is the cascade of the source. -/
def should_run_check (day hour : Nat) : Bool :=
  if day = 0 then false
  else if (1 ≤ day ∧ day ≤ 3) ∨ day = 6 then decide (7 ≤ hour ∧ hour < 19)
  else if day = 4 then decide (7 ≤ hour ∧ hour < 20)
  else if day = 5 then decide (7 ≤ hour ∧ hour < 21)
  else false

/-- Values on which `val / 10.0` does not raise (ints and bools). -/
def isNumericVal : PyVal → Bool
  | .str _ => false
  | _ => true

/-- Property entries the parsing loop handles without raising: both keys
present, and a numeric value whenever the code is one of the two codes
that get divided by `10.0`. -/
def wellFormed (p : RawProperty) : Bool :=
  match p.value, p.code with
  | some v, some c =>
    if c = "flow_water" ∨ c = "temp_current_f" then isNumericVal v else true
  | _, _ => false

end IceBath

/-! ### Helper lemmas -/

namespace IceBath


theorem normalizeFrom_append (r : Reading) (xs ys : List RawProperty) :
    normalizeFrom r (xs ++ ys) =
      match normalizeFrom r xs with
      | .ok r2 => normalizeFrom r2 ys
      | .error e => Except.error e := by
  induction xs generalizing r with
  | nil => simp [normalizeFrom]
  | cons item rest ih =>
    simp only [List.cons_append, normalizeFrom]
    cases stepProp r item with
    | ok r2 => exact ih r2
    | error e => rfl

theorem stepProp_flow (r : Reading) (v : Int) :
    stepProp r ⟨some "flow_water", some (.int v)⟩
      = .ok { r with flow_rate := (v : ℚ) / 10 } := by
  simp [stepProp, pyDivTen, bind, Except.bind]

theorem stepProp_temp (r : Reading) (v : Int) :
    stepProp r ⟨some "temp_current_f", some (.int v)⟩
      = .ok { r with water_temp := ((v : ℚ) / 10 - 32) * 5 / 9 } := by
  simp [stepProp, pyDivTen, bind, Except.bind]

theorem stepProp_sw (r : Reading) (v : Int) :
    stepProp r ⟨some "sw_water", some (.int v)⟩
      = .ok { r with manual_switch := decide (v ≠ 0) } := by
  simp [stepProp, pyBool, bind, Except.bind]

theorem stepProp_other (r : Reading) (c : String) (v : PyVal)
    (h1 : c ≠ "flow_water") (h2 : c ≠ "temp_current_f") (h3 : c ≠ "sw_water") :
    stepProp r ⟨some c, some v⟩ = .ok r := by
  simp [stepProp, h1, h2, h3, bind, Except.bind]



theorem stepProp_wf (p : RawProperty) (hp : wellFormed p = true) (r : Reading) :
    ∃ r2, stepProp r p = .ok r2 ∧
      (p.code ≠ some "flow_water" → r2.flow_rate = r.flow_rate) ∧
      (p.code ≠ some "temp_current_f" → r2.water_temp = r.water_temp) ∧
      (p.code ≠ some "sw_water" → r2.manual_switch = r.manual_switch) := by
  obtain ⟨c, v⟩ := p
  cases v with
  | none => simp [wellFormed] at hp
  | some pv =>
    cases c with
    | none => simp [wellFormed] at hp
    | some code =>
      by_cases h1 : code = "flow_water"
      · subst h1
        simp only [wellFormed, if_pos (Or.inl rfl)] at hp
        cases pv with
        | str s => simp [isNumericVal] at hp
        | int n => exact ⟨_, stepProp_flow r n, by simp, by simp, by simp⟩
        | bool b =>
          refine ⟨{ r with flow_rate := (if b then (1 : ℚ) else 0) / 10 }, ?_,
            by simp, by simp, by simp⟩
          simp [stepProp, pyDivTen, bind, Except.bind]
      · by_cases h2 : code = "temp_current_f"
        · subst h2
          simp only [wellFormed, if_pos (Or.inr rfl)] at hp
          cases pv with
          | str s => simp [isNumericVal] at hp
          | int n => exact ⟨_, stepProp_temp r n, by simp [h1], by simp, by simp⟩
          | bool b =>
            refine ⟨{ r with water_temp := ((if b then (1 : ℚ) else 0) / 10 - 32) * 5 / 9 },
              ?_, by simp, by simp, by simp⟩
            simp [stepProp, pyDivTen, bind, Except.bind, h1]
        · by_cases h3 : code = "sw_water"
          · subst h3
            refine ⟨{ r with manual_switch := pyBool pv }, ?_, by simp, by simp, by simp⟩
            simp [stepProp, h1, h2, bind, Except.bind]
          · exact ⟨r, stepProp_other r code pv h1 h2 h3, fun _ => rfl, fun _ => rfl,
              fun _ => rfl⟩

theorem normalizeFrom_wf (props : List RawProperty)
    (h : props.all wellFormed = true) (r : Reading) :
    ∃ r2, normalizeFrom r props = .ok r2 ∧
      ((∀ p ∈ props, p.code ≠ some "flow_water") → r2.flow_rate = r.flow_rate) ∧
      ((∀ p ∈ props, p.code ≠ some "temp_current_f") → r2.water_temp = r.water_temp) ∧
      ((∀ p ∈ props, p.code ≠ some "sw_water") → r2.manual_switch = r.manual_switch) := by
  induction props generalizing r with
  | nil => exact ⟨r, rfl, fun _ => rfl, fun _ => rfl, fun _ => rfl⟩
  | cons p rest ih =>
    simp only [List.all_cons, Bool.and_eq_true] at h
    obtain ⟨hp, hrest⟩ := h
    obtain ⟨r1, hstep, pf, pt, ps⟩ := stepProp_wf p hp r
    obtain ⟨r2, hnorm, qf, qt, qs⟩ := ih hrest r1
    refine ⟨r2, ?_, ?_, ?_, ?_⟩
    · simp [normalizeFrom, hstep, hnorm]
    · intro hall
      rw [qf fun q hq => hall q (List.mem_cons_of_mem _ hq),
        pf (hall p (List.mem_cons_self _ _))]
    · intro hall
      rw [qt fun q hq => hall q (List.mem_cons_of_mem _ hq),
        pt (hall p (List.mem_cons_self _ _))]
    · intro hall
      rw [qs fun q hq => hall q (List.mem_cons_of_mem _ hq),
        ps (hall p (List.mem_cons_self _ _))]



theorem runCycleFrom_append (fmtFlow : ℚ → String) (acc : List String)
    (xs ys : List (String × Response)) :
    runCycleFrom fmtFlow acc (xs ++ ys) =
      match runCycleFrom fmtFlow acc xs with
      | .ok l => runCycleFrom fmtFlow l ys
      | .error e => Except.error e := by
  induction xs generalizing acc with
  | nil => simp [runCycleFrom]
  | cons d rest ih =>
    obtain ⟨name, resp⟩ := d
    simp only [List.cons_append, runCycleFrom]
    cases get_device_status fmtFlow name resp with
    | ok issues => exact ih (acc ++ issues)
    | error e => rfl

theorem runCycleFrom_acc (fmtFlow : ℚ → String) (acc : List String)
    (devices : List (String × Response)) :
    runCycleFrom fmtFlow acc devices
      = (runCycle fmtFlow devices).map (fun l => acc ++ l) := by
  induction devices generalizing acc with
  | nil => simp [runCycleFrom, runCycle, Except.map]
  | cons d rest ih =>
    obtain ⟨name, resp⟩ := d
    simp only [runCycle, runCycleFrom]
    cases hgds : get_device_status fmtFlow name resp with
    | error e => rfl
    | ok issues =>
      dsimp only
      rw [ih (acc ++ issues), ih ([] ++ issues)]
      cases runCycle fmtFlow rest with
      | error e => rfl
      | ok B => simp [Except.map]

theorem runCycleFrom_forall2 (fmtFlow : ℚ → String)
    (devices : List (String × Response)) (per : List (List String))
    (hper : List.Forall₂
      (fun d issues => get_device_status fmtFlow d.1 d.2 = .ok issues) devices per)
    (acc : List String) :
    runCycleFrom fmtFlow acc devices = .ok (acc ++ per.flatten) := by
  induction hper generalizing acc with
  | nil => simp [runCycleFrom]
  | cons h1 h2 ih =>
    rename_i d issues rest restPer
    obtain ⟨name, resp⟩ := d
    simp only [runCycleFrom]
    dsimp only at h1
    rw [h1]
    dsimp only
    rw [ih (acc ++ issues)]
    simp


end IceBath

/-! ### Claim theorems -/

namespace IceBath


/-- C4: the schedule gate is closed all day Monday (day 0); open on
Tuesday-Thursday (1-3) and Sunday (6) iff `7 ≤ hour < 19`; open on
Friday (4) iff `7 ≤ hour < 20`; open on Saturday (5) iff `7 ≤ hour < 21`;
inclusive at the open hour, exclusive at the close hour, with the literal
boundary cases Tue 10:00 open, Tue 19:00 closed, Fri 19:30 open,
Fri 20:00 closed, Sat 20:59 open, Sat 21:00 closed. -/
theorem schedule_gate_spec (hour : Nat) :
    should_run_check 0 hour = false ∧
    (should_run_check 1 hour = true ↔ 7 ≤ hour ∧ hour < 19) ∧
    (should_run_check 2 hour = true ↔ 7 ≤ hour ∧ hour < 19) ∧
    (should_run_check 3 hour = true ↔ 7 ≤ hour ∧ hour < 19) ∧
    (should_run_check 6 hour = true ↔ 7 ≤ hour ∧ hour < 19) ∧
    (should_run_check 4 hour = true ↔ 7 ≤ hour ∧ hour < 20) ∧
    (should_run_check 5 hour = true ↔ 7 ≤ hour ∧ hour < 21) ∧
    should_run_check 1 10 = true ∧ should_run_check 1 19 = false ∧
    should_run_check 4 19 = true ∧ should_run_check 4 20 = false ∧
    should_run_check 5 20 = true ∧ should_run_check 5 21 = false := by
  refine ⟨rfl, ?_, ?_, ?_, ?_, ?_, ?_, by decide, by decide, by decide, by decide,
    by decide, by decide⟩ <;> simp [should_run_check]

/-- C7: pump-state inference, first match wins: flow above 1 L/min shows
"ON (Active Flow)" (ON_VIA_FLOW) even with the switch off; otherwise the
switch decides between "ON (Switch)" (ON_VIA_SWITCH) and "OFF" (OFF);
with the three literal cases of the spec. -/
theorem pump_state_priority (flow : ℚ) (sw : Bool) :
    (flow > 1 → pump_display flow sw = "ON (Active Flow)") ∧
    (flow ≤ 1 → sw = true → pump_display flow sw = "ON (Switch)") ∧
    (flow ≤ 1 → sw = false → pump_display flow sw = "OFF") ∧
    pump_display 5 false = "ON (Active Flow)" ∧
    pump_display 0 true = "ON (Switch)" ∧
    pump_display 0 false = "OFF" := by
  refine ⟨?_, ?_, ?_, by norm_num [pump_display], by norm_num [pump_display],
    by norm_num [pump_display]⟩
  · intro h
    simp [pump_display, h]
  · intro h hs
    simp [pump_display, not_lt.mpr h, hs]
  · intro h hs
    simp [pump_display, not_lt.mpr h, hs]

/-- C7 witness: flow 5.0 with the switch off shows ON_VIA_FLOW. -/
theorem pump_state_priority_witness :
    pump_display 5 false = "ON (Active Flow)" :=
  (pump_state_priority 5 false).1 (by norm_num)

/-- C10: the switch signal never influences the issue list: two property
lists normalizing to the same flow rate and water temperature produce
identical issues, whatever their switch values. -/
theorem switch_noninterference (p1 p2 : List RawProperty) (r1 r2 : Reading)
    (name : String) (_h1 : normalize p1 = .ok r1) (_h2 : normalize p2 = .ok r2)
    (hf : r1.flow_rate = r2.flow_rate) (ht : r1.water_temp = r2.water_temp) :
    evalIssues name r1 = evalIssues name r2 := by
  unfold evalIssues evalIssuesWith
  rw [hf, ht]

/-- C10 witness: the singleton `sw_water` list and the empty list give the
same (no-flow) issues even though their switch readings differ. -/
theorem switch_noninterference_witness :
    evalIssues "A" ⟨0, 0, true⟩ = evalIssues "A" ⟨0, 0, false⟩ :=
  switch_noninterference [⟨some "sw_water", some (.int 1)⟩] [] ⟨0, 0, true⟩
    ⟨0, 0, false⟩ "A"
    (by simp [normalize, normalizeFrom, stepProp, pyBool, initReading, bind, Except.bind])
    rfl rfl rfl

/-- C1 counterexample: there is no Celsius preference in the code — with a
Celsius-style property (`temp_current`, raw 250, which the claim says must
win and give 25.0) present alongside `temp_current_f` raw 755, the
resulting temperature is the Fahrenheit-derived 145/6 ≈ 24.17, not 25. -/
theorem temp_celsius_preference_counterexample :
    normalize [⟨some "temp_current", some (.int 250)⟩,
        ⟨some "temp_current_f", some (.int 755)⟩]
      = .ok ⟨0, 145 / 6, false⟩ ∧ (145 / 6 : ℚ) ≠ 250 / 10 := by
  constructor
  · simp [normalize, normalizeFrom, stepProp, pyDivTen, initReading, bind, Except.bind]
    norm_num
  · norm_num

/-- C1 amended: temperature normalization handles only the
Fahrenheit-coded property `temp_current_f`, raw value divided by 10.0 and
converted via `(f - 32) * 5/9`; a Celsius-style code such as
`temp_current` is not recognized and is ignored; for the single property
`{code: temp_current_f, value: 755}` the result is 145/6, within 0.01 of
24.17. -/
theorem temp_normalization_fahrenheit_only :
    (∀ (r : Reading) (v : Int),
      stepProp r ⟨some "temp_current_f", some (.int v)⟩
        = .ok { r with water_temp := ((v : ℚ) / 10 - 32) * 5 / 9 }) ∧
    (∀ (r : Reading) (v : Int),
      stepProp r ⟨some "temp_current", some (.int v)⟩ = .ok r) ∧
    normalize [⟨some "temp_current_f", some (.int 755)⟩] = .ok ⟨0, 145 / 6, false⟩ ∧
    |(145 / 6 : ℚ) - 2417 / 100| < 1 / 100 := by
  refine ⟨stepProp_temp, ?_, ?_, by norm_num [abs_lt]⟩
  · intro r v
    exact stepProp_other r "temp_current" (.int v) (by decide) (by decide) (by decide)
  · simp [normalize, normalizeFrom, stepProp, pyDivTen, initReading, bind, Except.bind]
    norm_num



/-- C5: the flow rule: strictly between 0 and MIN_FLOW there is exactly
one LOW_FLOW issue, carrying the exact measured flow value, whose rendered
detail contains that value's rendering; at exactly 0.0 there is a NO_FLOW
issue and never a LOW_FLOW issue; at or above MIN_FLOW there is no flow
issue. -/
theorem flow_rule_spec (flow temp : ℚ) (sw : Bool) (name : String) :
    (0 < flow → flow < MIN_FLOW →
      (evalIssues name ⟨flow, temp, sw⟩).filter isLowFlow = [Issue.lowFlow name flow] ∧
      (evalIssues name ⟨flow, temp, sw⟩).filter isFlowIssue = [Issue.lowFlow name flow] ∧
      ∀ fmtFlow : ℚ → String,
        ContainsSub (issueDetail fmtFlow (Issue.lowFlow name flow)) (fmtFlow flow)) ∧
    (flow = 0 →
      (evalIssues name ⟨flow, temp, sw⟩).filter isNoFlow = [Issue.noFlow name] ∧
      (evalIssues name ⟨flow, temp, sw⟩).filter isLowFlow = []) ∧
    (MIN_FLOW ≤ flow → (evalIssues name ⟨flow, temp, sw⟩).filter isFlowIssue = []) := by
  refine ⟨?_, ?_, ?_⟩
  · intro h0 hmin
    have hne : flow ≠ 0 := ne_of_gt h0
    refine ⟨?_, ?_, fun fmtFlow => ⟨name ++ ": Low Flow (", "L)", rfl⟩⟩ <;>
      · simp only [evalIssues, evalIssuesWith, List.filter_append, if_pos hmin, if_neg hne]
        split <;> simp [isLowFlow, isFlowIssue]
  · intro h0
    constructor
    · simp only [evalIssues, evalIssuesWith, List.filter_append, h0]
      norm_num [MIN_FLOW]
      split <;> simp [isNoFlow, isLowFlow]
    · simp only [evalIssues, evalIssuesWith, List.filter_append, h0]
      norm_num [MIN_FLOW]
      exact ⟨rfl, fun a _ _ ha => by subst ha; rfl⟩
  · intro hmin
    simp only [evalIssues, evalIssuesWith, List.filter_append, if_neg (not_lt.mpr hmin)]
    split <;> simp [isFlowIssue]

/-- C5 witness: flow 5.0 (with healthy temperature 8.0) yields exactly the
LOW_FLOW issue carrying 5.0. -/
theorem flow_rule_spec_witness :
    (evalIssues "A" ⟨5, 8, false⟩).filter isLowFlow = [Issue.lowFlow "A" 5] :=
  ((flow_rule_spec 5 8 false "A").1 (by norm_num) (by norm_num [MIN_FLOW])).1

/-- C6: the temperature rule: a HIGH_TEMP issue is produced iff
`water_temp > maxTemp` and `water_temp > 0`, for any threshold values
(so also for a negative threshold); a temperature of exactly 0.0 never
produces one; the rendered detail carries the measured value to one
decimal place (`fmt1`). -/
theorem temp_rule_spec (minF maxT flow temp : ℚ) (sw : Bool) (name : String) :
    ((evalIssuesWith minF maxT name ⟨flow, temp, sw⟩).filter isHighTemp
      = if temp > maxT ∧ temp > 0 then [Issue.highTemp name temp] else []) ∧
    ((evalIssues name ⟨flow, temp, sw⟩).filter isHighTemp
      = if temp > MAX_TEMP ∧ temp > 0 then [Issue.highTemp name temp] else []) ∧
    (temp = 0 → (evalIssuesWith minF maxT name ⟨flow, temp, sw⟩).filter isHighTemp = []) ∧
    ∀ fmtFlow : ℚ → String,
      ContainsSub (issueDetail fmtFlow (Issue.highTemp name temp)) (fmt1 temp) := by
  have key : ∀ a b : ℚ, (evalIssuesWith a b name ⟨flow, temp, sw⟩).filter isHighTemp
      = if temp > b ∧ temp > 0 then [Issue.highTemp name temp] else [] := by
    intro a b
    simp only [evalIssuesWith, List.filter_append]
    have h1 : (List.filter isHighTemp
        (if flow < a then if flow = 0 then [Issue.noFlow name]
         else [Issue.lowFlow name flow] else [])) = [] := by
      split
      · split <;> simp [isHighTemp]
      · simp
    rw [h1]
    split <;> simp [isHighTemp]
  refine ⟨key minF maxT, key MIN_FLOW MAX_TEMP, ?_,
    fun fmtFlow => ⟨name ++ ": High Temp (", "°C)", rfl⟩⟩
  intro h0
  rw [key minF maxT, if_neg]
  rintro ⟨-, h2⟩
  rw [h0] at h2
  exact lt_irrefl 0 h2

/-- C6 witness: a zero temperature yields no HIGH_TEMP issue even against
the negative threshold -5. -/
theorem temp_rule_spec_witness :
    (evalIssuesWith 19 (-5) "A" ⟨25, 0, false⟩).filter isHighTemp = [] :=
  (temp_rule_spec 19 (-5) 25 0 false "A").2.2.1 rfl



/-- C2 counterexample: normalization does raise — a property entry missing
its `value` key raises `KeyError`, and a string value under `flow_water`
raises `TypeError`, instead of substituting defaults. -/
theorem normalize_raises_counterexample :
    normalize [⟨some "flow_water", none⟩] = .error (.keyError "value") ∧
    normalize [⟨none, some (.int 3)⟩] = .error (.keyError "code") ∧
    normalize [⟨some "flow_water", some (.str "7")⟩] = .error .typeError := by
  refine ⟨rfl, rfl, ?_⟩
  simp [normalize, normalizeFrom, stepProp, pyDivTen, initReading, bind, Except.bind]

/-- C2 amended: the empty property list yields all defaults, and for every
property list whose entries all carry both keys (with a numeric value
under the two numeric codes) normalization completes without an exception,
with the defaults 0.0 / 0.0 / false substituted for every field whose code
is absent; entries with a missing key or a string value under a numeric
code raise instead. -/
theorem normalize_wellformed_total :
    normalize [] = .ok ⟨0, 0, false⟩ ∧
    ∀ props : List RawProperty, props.all wellFormed = true →
      ∃ r, normalize props = .ok r ∧
        ((∀ p ∈ props, p.code ≠ some "flow_water") → r.flow_rate = 0) ∧
        ((∀ p ∈ props, p.code ≠ some "temp_current_f") → r.water_temp = 0) ∧
        ((∀ p ∈ props, p.code ≠ some "sw_water") → r.manual_switch = false) := by
  refine ⟨rfl, fun props h => ?_⟩
  obtain ⟨r2, hr, hf, ht, hs⟩ := normalizeFrom_wf props h initReading
  exact ⟨r2, hr, hf, ht, hs⟩

/-- C2 witness: a list with an unknown code, a boolean-valued flow code, a
duplicated code and a string-valued switch code normalizes without
raising. -/
theorem normalize_wellformed_total_witness :
    ∃ r, normalize [⟨some "mystery", some (.str "?")⟩,
        ⟨some "sw_water", some (.str "on")⟩,
        ⟨some "sw_water", some (.int 0)⟩] = .ok r ∧
      ((∀ p ∈ ([⟨some "mystery", some (.str "?")⟩,
        ⟨some "sw_water", some (.str "on")⟩,
        ⟨some "sw_water", some (.int 0)⟩] : List RawProperty),
          p.code ≠ some "flow_water") → r.flow_rate = 0) ∧
      ((∀ p ∈ ([⟨some "mystery", some (.str "?")⟩,
        ⟨some "sw_water", some (.str "on")⟩,
        ⟨some "sw_water", some (.int 0)⟩] : List RawProperty),
          p.code ≠ some "temp_current_f") → r.water_temp = 0) ∧
      ((∀ p ∈ ([⟨some "mystery", some (.str "?")⟩,
        ⟨some "sw_water", some (.str "on")⟩,
        ⟨some "sw_water", some (.int 0)⟩] : List RawProperty),
          p.code ≠ some "sw_water") → r.manual_switch = false) :=
  normalize_wellformed_total.2 _ (by decide)

/-- C3 counterexample: duplicated codes are not first-match-wins — two
`flow_water` entries with raw values 100 then 200 normalize to flow 20.0
(the later entry), not 10.0 (the first). -/
theorem normalize_first_match_counterexample :
    normalize [⟨some "flow_water", some (.int 100)⟩,
        ⟨some "flow_water", some (.int 200)⟩] = .ok ⟨20, 0, false⟩ ∧
    (20 : ℚ) ≠ (100 : ℚ) / 10 := by
  constructor
  · simp [normalize, normalizeFrom, stepProp, pyDivTen, initReading, bind, Except.bind]
    norm_num
  · norm_num

/-- C3 amended: the pass is deterministic but last-match-wins: appending a
later occurrence of a recognized code overwrites the field resolved so
far, for each of the three recognized codes. -/
theorem normalize_last_match_wins (props : List RawProperty) (r : Reading)
    (h : normalize props = .ok r) (v : Int) :
    normalize (props ++ [⟨some "flow_water", some (.int v)⟩])
      = .ok { r with flow_rate := (v : ℚ) / 10 } ∧
    normalize (props ++ [⟨some "temp_current_f", some (.int v)⟩])
      = .ok { r with water_temp := ((v : ℚ) / 10 - 32) * 5 / 9 } ∧
    normalize (props ++ [⟨some "sw_water", some (.int v)⟩])
      = .ok { r with manual_switch := decide (v ≠ 0) } := by
  unfold normalize at h ⊢
  refine ⟨?_, ?_, ?_⟩ <;>
    rw [normalizeFrom_append, h] <;>
    simp [normalizeFrom, stepProp_flow, stepProp_temp, stepProp_sw]

/-- C3 witness: after a first `flow_water` entry resolving flow 10.0, a
second entry with raw 200 overwrites the flow to 20.0. -/
theorem normalize_last_match_wins_witness :
    normalize ([⟨some "flow_water", some (.int 100)⟩] ++
        [⟨some "flow_water", some (.int 200)⟩])
      = .ok ⟨(200 : ℚ) / 10, 0, false⟩ :=
  (normalize_last_match_wins [⟨some "flow_water", some (.int 100)⟩] ⟨10, 0, false⟩
    (by simp [normalize, normalizeFrom, stepProp, pyDivTen, initReading, bind,
      Except.bind]; norm_num) 200).1



/-- C8: a failure response yields exactly the single connection-error
issue (so neither threshold rule contributes), and a failing device in the
middle of the polling loop leaves the issues of the devices before and
after it untouched. -/
theorem connection_error_isolated (fmtFlow : ℚ → String) (name msg : String)
    (pre post : List (String × Response)) (A B : List String)
    (hA : runCycle fmtFlow pre = .ok A) (hB : runCycle fmtFlow post = .ok B) :
    get_device_status fmtFlow name (.failure msg)
      = .ok [name ++ ": Connection Error ❌"] ∧
    runCycle fmtFlow (pre ++ (name, Response.failure msg) :: post)
      = .ok (A ++ [name ++ ": Connection Error ❌"] ++ B) := by
  refine ⟨rfl, ?_⟩
  unfold runCycle at hA hB ⊢
  rw [runCycleFrom_append, hA]
  dsimp only
  show runCycleFrom fmtFlow (A ++ [name ++ ": Connection Error ❌"]) post = _
  rw [runCycleFrom_acc]
  unfold runCycle
  rw [hB]
  simp [Except.map]

/-- C8 witness: device A healthy-but-no-flow, device B failing, device C
healthy with flow 25.0: the cycle reports A's issue, then B's single
connection error, then nothing for C. -/
theorem connection_error_isolated_witness :
    runCycle (fun _ => "") [("A", Response.success []),
        ("B", Response.failure "timeout"),
        ("C", Response.success [⟨some "flow_water", some (.int 250)⟩])]
      = .ok (["A: No Flow (Pump Off?)"] ++ ["B: Connection Error ❌"] ++ []) :=
  (connection_error_isolated (fun _ => "") "B" "timeout"
    [("A", Response.success [])]
    [("C", Response.success [⟨some "flow_water", some (.int 250)⟩])]
    ["A: No Flow (Pump Off?)"] []
    (by simp [runCycle, runCycleFrom, get_device_status, normalize, normalizeFrom,
      initReading, evalIssues, evalIssuesWith, MIN_FLOW, MAX_TEMP, issueDetail,
      bind, Except.bind])
    (by simp [runCycle, runCycleFrom, get_device_status, normalize, normalizeFrom,
      stepProp, pyDivTen, initReading, evalIssues, evalIssuesWith, MIN_FLOW,
      MAX_TEMP, issueDetail, bind, Except.bind]; norm_num)).2

/-- C9: the cycle flattens the per-device issue lists preserving device
order; within one device the flow-rule issues come before the
temperature-rule issues; a nonempty flattened batch produces exactly one
notification, the newline-join of the issue details; an empty batch
produces none. -/
theorem aggregate_and_notify_spec (fmtFlow : ℚ → String)
    (devices : List (String × Response)) (per : List (List String))
    (hper : List.Forall₂
      (fun d issues => get_device_status fmtFlow d.1 d.2 = .ok issues)
      devices per) :
    runCycle fmtFlow devices = .ok per.flatten ∧
    (per.flatten ≠ [] →
      mainNotifications fmtFlow devices = .ok [String.intercalate "\n" per.flatten]) ∧
    (per.flatten = [] → mainNotifications fmtFlow devices = .ok []) ∧
    ∀ (name : String) (r : Reading), ∃ fp tp,
      evalIssues name r = fp ++ tp ∧
      (∀ i ∈ fp, isFlowIssue i = true) ∧ (∀ i ∈ tp, isHighTemp i = true) := by
  have hrun : runCycle fmtFlow devices = .ok per.flatten := by
    have := runCycleFrom_forall2 fmtFlow devices per hper []
    simpa [runCycle] using this
  refine ⟨hrun, ?_, ?_, ?_⟩
  · intro hne
    simp [mainNotifications, hrun, bind, Except.bind, List.isEmpty_iff, hne]
  · intro he
    simp [mainNotifications, hrun, bind, Except.bind, List.isEmpty_iff, he]
  · intro name r
    refine ⟨_, _, rfl, ?_, ?_⟩
    · intro i hi
      revert hi
      split
      · split <;> (simp only [List.mem_singleton]; rintro rfl; rfl)
      · simp
    · intro i hi
      revert hi
      split
      · simp only [List.mem_singleton]
        rintro rfl
        rfl
      · simp

/-- C9 witness: one failing and one no-flow device produce the single
two-line notification; two healthy devices produce none. -/
theorem aggregate_and_notify_spec_witness :
    mainNotifications (fun _ => "")
        [("A", Response.failure "x"), ("B", Response.success [])]
      = .ok [String.intercalate "\n"
          ([["A: Connection Error ❌"], ["B: No Flow (Pump Off?)"]] : List (List String)).flatten] :=
  ((aggregate_and_notify_spec (fun _ => "")
      [("A", Response.failure "x"), ("B", Response.success [])]
      [["A: Connection Error ❌"], ["B: No Flow (Pump Off?)"]]
      (by
        constructor
        · rfl
        constructor
        · simp [get_device_status, normalize, normalizeFrom, initReading,
            evalIssues, evalIssuesWith, MIN_FLOW, MAX_TEMP, issueDetail,
            bind, Except.bind]
        · constructor)).2.1 (by simp))


end IceBath
